import Mathlib

/-!
Verification of the gooddata-mcp-server repository.

This file shallowly embeds the two cores of the repository:

* the access-graph analyzer of `scripts/analyze_permissions.py`
  (index construction, anomaly detectors, JSON export), and
* the two-phase preview/apply/restore write-safety protocol of
  `src/gooddata_cli/mcp_server.py` (duplicate-metric scan, confirmation
  token, backup-before-write ordering, audit trail, restore).

Python `defaultdict(list)` objects that are only ever extended by
`d[k].append(v)` are modelled by their list of append events
`List (κ × ν)`; lookup, key membership and `items()` iteration order are
derived from the event list.  Python `dict` used as a first-write-wins
map (`seen_metric_ids`) is modelled as an association list.  The
confirmation token is modelled with a full executable SHA-256 over the
byte rendering of the same string Python hashes.
-/

set_option maxRecDepth 100000

namespace GoodDataSpec

/-! ## Dict-as-event-list helpers -/

/-- All values appended under key `k`, in append order: the list
`d[k]` of a `defaultdict(list)` (and `[]`/falsy when the key is absent). -/
def ddLookup {α β : Type} [DecidableEq α] (events : List (α × β)) (k : α) : List β :=
  (events.filter (fun p => decide (p.1 = k))).map (·.2)

/-- Python `k in d` for the event-list model. -/
def ddHasKey {α β : Type} [DecidableEq α] (events : List (α × β)) (k : α) : Bool :=
  events.any (fun p => decide (p.1 = k))

/-- Deduplicate keeping the first occurrence of each element
(Python dict key iteration order). -/
def firstDedupAux {α : Type} [DecidableEq α] (seen : List α) : List α → List α
  | [] => []
  | a :: rest =>
    if a ∈ seen then firstDedupAux seen rest else a :: firstDedupAux (a :: seen) rest

/-- Keys of the event-list dict, in first-insertion order. -/
def ddKeys {α β : Type} [DecidableEq α] (events : List (α × β)) : List α :=
  firstDedupAux [] (events.map (·.1))

/-- Python `d.items()`: keys in first-insertion order, each with its value list. -/
def ddItems {α β : Type} [DecidableEq α] (events : List (α × β)) : List (α × List β) :=
  (ddKeys events).map (fun k => (k, ddLookup events k))

/-- Python str() of an optional string (`None` renders as `"None"` in f-strings). -/
def pyStr : Option String → String
  | some s => s
  | none => "None"

/-! ## SHA-256 (model of `hashlib.sha256`)

32-bit words are `Nat` values reduced modulo `2^32`. -/

def w32mod : Nat := 4294967296

def w32 (x : Nat) : Nat := x % w32mod

def wadd (a b : Nat) : Nat := (a + b) % w32mod

def spin32 (n x : Nat) : Nat := w32 ((x >>> n) ||| (x <<< (32 - n)))

def chooseF (x y z : Nat) : Nat := (x &&& y) ^^^ ((x ^^^ 4294967295) &&& z)

def majorF (x y z : Nat) : Nat := (x &&& y) ^^^ (x &&& z) ^^^ (y &&& z)

def capSig0 (x : Nat) : Nat := spin32 2 x ^^^ spin32 13 x ^^^ spin32 22 x

def capSig1 (x : Nat) : Nat := spin32 6 x ^^^ spin32 11 x ^^^ spin32 25 x

def lowSig0 (x : Nat) : Nat := spin32 7 x ^^^ spin32 18 x ^^^ (x >>> 3)

def lowSig1 (x : Nat) : Nat := spin32 17 x ^^^ spin32 19 x ^^^ (x >>> 10)

def sha256K : List Nat :=
  [1116352408, 1899447441, 3049323471, 3921009573, 961987163, 1508970993,
   2453635748, 2870763221, 3624381080, 310598401, 607225278, 1426881987,
   1925078388, 2162078206, 2614888103, 3248222580, 3835390401, 4022224774,
   264347078, 604807628, 770255983, 1249150122, 1555081692, 1996064986,
   2554220882, 2821834349, 2952996808, 3210313671, 3336571891, 3584528711,
   113926993, 338241895, 666307205, 773529912, 1294757372, 1396182291,
   1695183700, 1986661051, 2177026350, 2456956037, 2730485921, 2820302411,
   3259730800, 3345764771, 3516065817, 3600352804, 4094571909, 275423344,
   430227734, 506948616, 659060556, 883997877, 958139571, 1322822218,
   1537002063, 1747873779, 1955562222, 2024104815, 2227730452, 2361852424,
   2428436474, 2756734187, 3204031479, 3329325298]

def sha256H0 : List Nat :=
  [1779033703, 3144134277, 1013904242, 2773480762,
   1359893119, 2600822924, 528734635, 1541459225]

/-- `k` bytes of `n`, big-endian. -/
def beBytes : Nat → Nat → List Nat
  | 0, _ => []
  | k + 1, n => beBytes k (n / 256) ++ [n % 256]

/-- SHA-256 padding: append `0x80`, zeros to 56 mod 64, then the 64-bit bit length. -/
def padMessage (msg : List Nat) : List Nat :=
  msg ++ [0x80] ++ List.replicate ((119 - msg.length % 64) % 64) 0 ++ beBytes 8 (msg.length * 8)

/-- Big-endian 32-bit words from bytes. -/
def toWords : List Nat → List Nat
  | b0 :: b1 :: b2 :: b3 :: rest => (((b0 * 256 + b1) * 256 + b2) * 256 + b3) :: toWords rest
  | _ => []

/-- One message-schedule extension step: append `W[t]` for the next `t`. -/
def extendW (w : List Nat) : List Nat :=
  let n := w.length
  w ++ [wadd (wadd (lowSig1 (w.getD (n - 2) 0)) (w.getD (n - 7) 0))
             (wadd (lowSig0 (w.getD (n - 15) 0)) (w.getD (n - 16) 0))]

/-- Full 64-word message schedule from a 16-word block. -/
def schedule (block : List Nat) : List Nat :=
  (List.range 48).foldl (fun w _ => extendW w) block

/-- One round of the SHA-256 compression function on state `[a,b,c,d,e,f,g,h]`. -/
def compressStep (st : List Nat) (kw : Nat × Nat) : List Nat :=
  match st with
  | [a, b, c, d, e, f, g, h] =>
    let t1 := wadd h (wadd (capSig1 e) (wadd (chooseF e f g) (wadd kw.1 kw.2)))
    let t2 := wadd (capSig0 a) (majorF a b c)
    [wadd t1 t2, a, b, c, wadd d t1, e, f, g]
  | other => other

/-- Compress one 64-byte block (given as 16 words) into the running hash. -/
def compress (h : List Nat) (block : List Nat) : List Nat :=
  let st := ((sha256K.zip (schedule block)).foldl compressStep h)
  (h.zip st).map (fun p => wadd p.1 p.2)

/-- Fold the compression function over successive 64-byte chunks.  The fuel
argument (any bound on the number of chunks, e.g. the byte count) keeps the
recursion structural so the kernel can evaluate it. -/
def sha256Blocks (h : List Nat) : Nat → List Nat → List Nat
  | _, [] => h
  | 0, _ => h
  | fuel + 1, b :: rest =>
    sha256Blocks (compress h (toWords ((b :: rest).take 64))) fuel ((b :: rest).drop 64)

/-- SHA-256 digest (32 bytes) of a byte list. -/
def sha256 (msg : List Nat) : List Nat :=
  (sha256Blocks sha256H0 (padMessage msg).length (padMessage msg)).flatMap
    (fun wrd => beBytes 4 wrd)

/-- The lowercase hex digit for `n < 16` (codes 48-57 then 97-102). -/
def hexChar (n : Nat) : Char :=
  if n < 10 then Char.ofNat (48 + n) else Char.ofNat (87 + n)

/-- Two lowercase hex characters of a byte. -/
def hex2 (n : Nat) : String := String.mk [hexChar (n / 16 % 16), hexChar (n % 16)]

/-- `hashlib.sha256(..).hexdigest()` -/
def sha256hex (msg : List Nat) : String := String.join ((sha256 msg).map hex2)

/-- Byte rendering of a string; the strings hashed by the tools are ASCII,
where UTF-8 bytes coincide with code points. -/
def strBytes (s : String) : List Nat := s.data.map (·.toNat)

/-! ## `json.dumps` model (for the duplicate lists fed to the token hash)

Models Python `json.dumps(value, sort_keys=True)` with its default
separators `", "` and `": "` and `ensure_ascii=True` (for code points in
the basic multilingual plane). -/

def hex4 (n : Nat) : String := hex2 (n / 256 % 256) ++ hex2 (n % 256)

/-- JSON escaping of one character as `json.dumps` renders it. -/
def escChar (c : Char) : String :=
  if c = '"' then "\\\""
  else if c = '\\' then "\\\\"
  else if c = '\n' then "\\n"
  else if c = '\r' then "\\r"
  else if c = '\t' then "\\t"
  else if c.toNat = 8 then "\\b"
  else if c.toNat = 12 then "\\f"
  else if c.toNat < 32 ∨ c.toNat ≥ 128 then "\\u" ++ hex4 c.toNat
  else String.mk [c]

def escJson (s : String) : String := String.join (s.data.map escChar)

def jsonStr (s : String) : String := "\"" ++ escJson s ++ "\""

/-- A Python value that is a string or `None`. -/
def jsonOptStr : Option String → String
  | some s => jsonStr s
  | none => "null"

/-! ## Coordinator data model (`mcp_server.py`)

The visualization-object JSON fetched from the gateway, restricted to the
parts the tools read.  `metricId` flattens the Python access path
`measure["definition"]["measureDefinition"]["item"]["identifier"]["id"]`
(every step a `.get` with `{}` default, so a missing step yields `None`). -/

structure Measure where
  localIdentifier : Option String
  metricId : Option String
  title : Option String
deriving DecidableEq, Repr

/-- One entry of a bucket's `items` array; `measure` is absent when the
item has no `"measure"` key. -/
structure Item where
  measure : Option Measure
deriving DecidableEq, Repr

structure Bucket where
  localIdentifier : Option String
  items : List Item
deriving DecidableEq, Repr

/-- The fetched object (`data` in the Python code): title and
`data["data"]["attributes"]["content"]["buckets"]`. -/
structure FetchedData where
  title : Option String
  buckets : List Bucket
deriving DecidableEq, Repr

/-- One entry of the `duplicates` list built by preview/apply. -/
structure DupEntry where
  local_identifier : Option String
  metric_id : Option String
  title : Option String
  duplicate_of : Option String
deriving DecidableEq, Repr

/-- One entry of preview's `current_metrics` list. -/
structure CurMetric where
  local_identifier : Option String
  metric_id : Option String
  title : Option String
deriving DecidableEq, Repr

/-- `json.dumps` of one duplicate dict with `sort_keys=True`
(sorted key order: duplicate_of, local_identifier, metric_id, title). -/
def dumpsDupEntry (d : DupEntry) : String :=
  "\x7b\"duplicate_of\": " ++ jsonOptStr d.duplicate_of ++
  ", \"local_identifier\": " ++ jsonOptStr d.local_identifier ++
  ", \"metric_id\": " ++ jsonOptStr d.metric_id ++
  ", \"title\": " ++ jsonOptStr d.title ++ "\x7d"

/-- `json.dumps(duplicates, sort_keys=True)`. -/
def dumpsDuplicates (dups : List DupEntry) : String :=
  "[" ++ String.intercalate ", " (dups.map dumpsDupEntry) ++ "]"

/-- `token_data = f"{insight_id}:{json.dumps(duplicates, sort_keys=True)}"`. -/
def tokenData (insightId : String) (dups : List DupEntry) : String :=
  insightId ++ ":" ++ dumpsDuplicates dups

/-- `hashlib.sha256(token_data.encode()).hexdigest()[:16]`. -/
def confirmationTokenOf (insightId : String) (dups : List DupEntry) : String :=
  (sha256hex (strBytes (tokenData insightId dups))).take 16

/-! ### The duplicate scan

Both preview and apply walk every bucket whose `localIdentifier` is
`"measures"` and every item carrying a `"measure"` key, sharing one
`seen_metric_ids` dict across buckets. -/

/-- The measures visited by the scan loops, in visit order. -/
def measuresOf (buckets : List Bucket) : List Measure :=
  (buckets.filter (fun b => decide (b.localIdentifier = some "measures"))).flatMap
    (fun b => b.items.filterMap (·.measure))

/-- `seen_metric_ids`: metric id (possibly `None`) to the local identifier of
its first occurrence; a plain Python dict written at most once per key. -/
abbrev SeenMap := List (Option String × Option String)

/-- Python `seen[k]` combined with `k in seen`. -/
def lookupSeen (seen : SeenMap) (k : Option String) : Option (Option String) :=
  (seen.find? (fun p => decide (p.1 = k))).map (·.2)

/-- One iteration of apply's re-identification loop
(`mcp_server.py` lines 1092-1112). -/
def applyScanStep (st : List DupEntry × SeenMap) (m : Measure) : List DupEntry × SeenMap :=
  match lookupSeen st.2 m.metricId with
  | some firstLocal =>
    (st.1 ++ [⟨m.localIdentifier, m.metricId, m.title, firstLocal⟩], st.2)
  | none => (st.1, st.2 ++ [(m.metricId, m.localIdentifier)])

def applyScan (buckets : List Bucket) : List DupEntry × SeenMap :=
  (measuresOf buckets).foldl applyScanStep ([], [])

/-- The `duplicates` list recomputed by apply. -/
def applyDuplicates (buckets : List Bucket) : List DupEntry :=
  (applyScan buckets).1

/-- Apply's `seen_metric_ids` after the loop (its size is the reported
`new_metric_count`). -/
def applySeen (buckets : List Bucket) : SeenMap :=
  (applyScan buckets).2

/-- One iteration of preview's scan loop (`mcp_server.py` lines 969-997),
which additionally accumulates `current_metrics`. -/
def previewScanStep (st : List CurMetric × List DupEntry × SeenMap) (m : Measure) :
    List CurMetric × List DupEntry × SeenMap :=
  let cur := st.1 ++ [⟨m.localIdentifier, m.metricId, m.title⟩]
  match lookupSeen st.2.2 m.metricId with
  | some firstLocal =>
    (cur, st.2.1 ++ [⟨m.localIdentifier, m.metricId, m.title, firstLocal⟩], st.2.2)
  | none => (cur, st.2.1, st.2.2 ++ [(m.metricId, m.localIdentifier)])

def previewScan (buckets : List Bucket) : List CurMetric × List DupEntry × SeenMap :=
  (measuresOf buckets).foldl previewScanStep ([], [], [])

/-- Preview's `current_metrics` list. -/
def previewCurrentMetrics (buckets : List Bucket) : List CurMetric :=
  (previewScan buckets).1

/-- Preview's `duplicates` list. -/
def previewDuplicates (buckets : List Bucket) : List DupEntry :=
  (previewScan buckets).2.1

/-- The confirmation token preview returns. -/
def previewTok (insightId : String) (buckets : List Bucket) : String :=
  confirmationTokenOf insightId (previewDuplicates buckets)

/-- The `expected_token` apply recomputes from the re-fetched state. -/
def applyTok (insightId : String) (buckets : List Bucket) : String :=
  confirmationTokenOf insightId (applyDuplicates buckets)

/-! ### Apply and restore as effect traces

Each side-effecting call the tools make (audit-log append, backup-file
write, gateway PUT) is recorded as one event, in program order. -/

/-- The `details` dict of an audit entry, restricted to the keys the
tools write. -/
structure AuditDetails where
  reason : Option String := none
  errorMsg : Option String := none
  backupPath : Option String := none
  removedCount : Option Nat := none
  removed : List DupEntry := []
  duplicatesCount : Option Nat := none
  restoredFrom : Option String := none
  originalBackupTime : Option String := none
deriving DecidableEq, Repr

inductive Effect where
  | audit (customer : String) (operation : String) (objectId : String) (status : String)
      (details : AuditDetails)
  | backup (path : String) (customer : String) (objectType : String) (objectId : String)
      (snapshot : FetchedData)
  | persist (wsId : String) (objectId : String) (doc : Option FetchedData)
deriving DecidableEq, Repr

def Effect.isBackupEff : Effect → Bool
  | .backup .. => true
  | _ => false

def Effect.isPersistEff : Effect → Bool
  | .persist .. => true
  | _ => false

/-- The JSON result object `apply_remove_duplicate_metrics` returns
(fields absent from a branch stay at their defaults). -/
structure ApplyResult where
  success : Bool
  insightId : Option String := none
  error : Option String := none
  message : Option String := none
  backupPath : Option String := none
  removedDuplicates : List DupEntry := []
  removedCount : Option Nat := none
  newMetricCount : Option Nat := none
deriving DecidableEq, Repr

/-- `item.get("measure", {}).get("localIdentifier")`. -/
def itemMeasureLocalId (it : Item) : Option String :=
  it.measure.bind (·.localIdentifier)

/-- The in-place mutation of `mcp_server.py` lines 1150-1156: filter the
items of every `"measures"` bucket by the duplicate local-identifier set. -/
def removeDupItems (buckets : List Bucket) (dupIds : List (Option String)) : List Bucket :=
  buckets.map (fun b =>
    if b.localIdentifier = some "measures" then
      { b with items := b.items.filter (fun it => decide (itemMeasureLocalId it ∉ dupIds)) }
    else b)

/-- `apply_remove_duplicate_metrics` (`mcp_server.py` lines 1036-1204),
from the point where the object has been re-fetched.  `fetched` is the
fresh GET response, `backupPath` the path `_save_backup` produces, and
`persistOk` whether the gateway PUT succeeds. -/
def applyRDM (wsId customerName insightId confirmationToken : String)
    (fetched : FetchedData) (backupPath : String) (persistOk : Bool) :
    ApplyResult × List Effect :=
  let duplicates := applyDuplicates fetched.buckets
  let expectedToken := confirmationTokenOf insightId duplicates
  if confirmationToken ≠ expectedToken then
    ({ success := false,
       error := some "Invalid confirmation token. The insight may have changed since preview.",
       message := some "Please run preview_remove_duplicate_metrics again to get a new token." },
     [Effect.audit customerName "apply_remove_duplicate_metrics" insightId "error"
        { reason := some "token_mismatch" }])
  else if duplicates = [] then
    ({ success := false, error := some "No duplicate metrics found to remove." }, [])
  else
    let dupLocalIds := duplicates.map (·.local_identifier)
    let newData : FetchedData :=
      { fetched with buckets := removeDupItems fetched.buckets dupLocalIds }
    let backupEff := Effect.backup backupPath customerName "visualizationObject" insightId fetched
    let persistEff := Effect.persist wsId insightId (some newData)
    if persistOk then
      ({ success := true, insightId := some insightId, backupPath := some backupPath,
         removedDuplicates := duplicates, removedCount := some duplicates.length,
         newMetricCount := some (applySeen fetched.buckets).length,
         message := some "Successfully removed duplicate metric(s). Backup saved." },
       [backupEff, persistEff,
        Effect.audit customerName "apply_remove_duplicate_metrics" insightId "success"
          { removedCount := some duplicates.length, removed := duplicates,
            backupPath := some backupPath }])
    else
      ({ success := false, error := some "Failed to update insight: persist failed",
         backupPath := some backupPath,
         message := some "Backup was saved. Use restore_insight_from_backup to restore if needed." },
       [backupEff, persistEff,
        Effect.audit customerName "apply_remove_duplicate_metrics" insightId "error"
          { errorMsg := some "persist failed", backupPath := some backupPath }])

/-- The on-disk backup document `_save_backup` writes and
`restore_insight_from_backup` loads (every field read back via `.get`). -/
structure BackupRecord where
  backed_up_at : Option String
  customer : Option String
  object_type : Option String
  object_id : Option String
  snapshot : Option FetchedData
deriving DecidableEq, Repr

structure RestoreResult where
  success : Bool
  error : Option String := none
  message : Option String := none
  objectId : Option String := none
  objectType : Option String := none
  restoredFrom : Option String := none
  originalBackupTime : Option String := none
deriving DecidableEq, Repr

/-- `restore_insight_from_backup` (`mcp_server.py` lines 1208-1314), from
the point where the backup file has been loaded.  `wsId` is the workspace
the customer resolution produced; the backup's own `customer` field is
never consulted. -/
def restoreFromBackup (wsId customerName backupPath : String) (backup : BackupRecord)
    (persistOk : Bool) : RestoreResult × List Effect :=
  if backup.object_type ≠ some "visualizationObject" then
    ({ success := false,
       error := some ("Unsupported object type for restore: " ++ pyStr backup.object_type),
       message := some "Currently only visualizationObject restores are supported." }, [])
  else
    let objId := pyStr backup.object_id
    let persistEff := Effect.persist wsId objId backup.snapshot
    if persistOk then
      ({ success := true, objectId := backup.object_id, objectType := backup.object_type,
         restoredFrom := some backupPath, originalBackupTime := backup.backed_up_at,
         message := some "Successfully restored visualizationObject from backup." },
       [persistEff,
        Effect.audit customerName "restore_insight_from_backup" objId "success"
          { restoredFrom := some backupPath, originalBackupTime := backup.backed_up_at }])
    else
      ({ success := false, error := some "Failed to restore insight: persist failed" },
       [persistEff,
        Effect.audit customerName "restore_insight_from_backup" objId "error"
          { errorMsg := some "persist failed", backupPath := some backupPath }])

/-- Customer entry of `~/.config/gooddata/workspaces.yaml`. -/
structure CustConfig where
  workspace_id : String
  project_path : String := ""
deriving DecidableEq, Repr

/-- `_resolve_workspace_id` (`mcp_server.py` lines 158-192): explicit
customer name wins, otherwise the first customer whose `project_path` is a
non-empty leading piece of the current working directory. -/
def resolveWorkspaceId (customers : List (String × CustConfig)) (cwd : String)
    (customer : Option String) : Except String String :=
  match customer with
  | some c =>
    match (customers.find? (fun p => decide (p.1 = c))).map (·.2) with
    | some cfg => Except.ok cfg.workspace_id
    | none => Except.error ("Unknown customer " ++ c)
  | none =>
    match customers.find? (fun p => decide (p.2.project_path ≠ "") && cwd.startsWith p.2.project_path) with
    | some p => Except.ok p.2.workspace_id
    | none => Except.error "Customer must be specified"

/-! ## Access-graph analyzer (`scripts/analyze_permissions.py`) -/

structure UserRec where
  id : String
  name : Option String := none
deriving DecidableEq, Repr

structure GroupRec where
  id : String
  name : Option String := none
deriving DecidableEq, Repr

structure WorkspaceRec where
  id : String
  name : Option String := none
deriving DecidableEq, Repr

/-- One workspace permission entry as recorded in step 6
(`assignee` may be missing, giving `None` fields). -/
structure PermEntry where
  workspace_id : String
  assignee_id : Option String
  assignee_type : Option String
  name : String
deriving DecidableEq, Repr

/-- The in-memory state the script builds during its fetch phase.  The
three index dicts are kept as their append-event traces; steps 3 appends
to `user_to_groups` and `group_to_users` in lockstep, so both derive from
the single `memberships` trace. -/
structure Snapshot where
  users : List UserRec
  groups : List GroupRec
  workspaces : List WorkspaceRec
  memberships : List (String × String)
  hierarchy : List (String × String)
  perms : List (String × PermEntry)
deriving DecidableEq, Repr

/-- `data["user_to_groups"]` events: `(user_id, group_id)` appends. -/
def utgEvents (s : Snapshot) : List (String × String) := s.memberships

/-- `data["group_to_users"]` events: the same appends keyed by group. -/
def gtuEvents (s : Snapshot) : List (String × String) :=
  s.memberships.map (fun p => (p.2, p.1))

/-- Membership events produced by step 3 from the declarative user
records `(user id, group ids)`; a partial fetch failure truncates this
event stream. -/
def declMembershipEvents (decl : List (String × List String)) : List (String × String) :=
  decl.flatMap (fun u => u.2.map (fun g => (u.1, g)))

/-- Anomaly-check-1 message (f-string of line 278). -/
def a1Msg (assigneeId : Option String) (permName wsId : String) : String :=
  "Direct user permission: " ++ pyStr assigneeId ++ " has \x27" ++ permName ++ "\x27 on " ++ wsId

/-- Anomaly check 1 (lines 275-279): loop over `workspace_permissions.items()`
appending a finding per `"user"`-kind assignment. -/
def a1Fold (s : Snapshot) (acc : List String) : List String :=
  (ddItems s.perms).foldl (fun acc2 wsP =>
    wsP.2.foldl (fun acc3 p =>
      if p.assignee_type = some "user" then acc3 ++ [a1Msg p.assignee_id p.name wsP.1]
      else acc3) acc2) acc

/-- Anomaly-check-2 message (line 285). -/
def a2Msg (uid : String) (n : Nat) : String :=
  "User " ++ uid ++ " is in " ++ toString n ++ " groups"

/-- Anomaly check 2 (lines 283-286): loop over `user_to_groups.items()`
appending a finding when a user has more than 3 groups. -/
def a2Fold (s : Snapshot) (acc : List String) : List String :=
  (ddItems (utgEvents s)).foldl (fun a p =>
    if p.2.length > 3 then a ++ [a2Msg p.1 p.2.length] else a) acc

/-- Anomaly-check-3 message (line 292). -/
def a3Msg (wsId : String) : String :=
  "Workspace " ++ wsId ++ " has no explicit permissions"

/-- Anomaly check 3 (lines 290-293): loop over the workspaces list. -/
def a3Fold (s : Snapshot) (acc : List String) : List String :=
  s.workspaces.foldl (fun a ws =>
    if ddHasKey s.perms ws.id = false ∨ ddLookup s.perms ws.id = [] then
      a ++ [a3Msg ws.id]
    else a) acc

/-- `used_groups` (lines 297-301): every `"userGroup"`-kind assignee id
over all workspace permission lists.  The Python value is a set; a list
with the same appends has the same membership. -/
def usedGroups (s : Snapshot) : List (Option String) :=
  (ddItems s.perms).foldl (fun acc wsP =>
    wsP.2.foldl (fun a p =>
      if p.assignee_type = some "userGroup" then a ++ [p.assignee_id] else a) acc) []

/-- Anomaly-check-4 message (line 310). -/
def orphanMsg (gid : String) : String := "Orphaned group: " ++ gid

/-- Anomaly check 4 (lines 303-311): a group with no members, no children
and no group-kind workspace assignment. -/
def a4Fold (s : Snapshot) (acc : List String) : List String :=
  s.groups.foldl (fun a g =>
    if ddLookup (gtuEvents s) g.id = [] ∧ ddHasKey s.hierarchy g.id = false ∧
        some g.id ∉ usedGroups s then
      a ++ [orphanMsg g.id]
    else a) acc

/-- The `anomalies` list after the four appending anomaly checks have
run, in program order.  Anomaly check 5 (lines 313-325) prints its
findings but never appends to `anomalies`. -/
def anomaliesList (s : Snapshot) : List String :=
  a4Fold s (a3Fold s (a2Fold s (a1Fold s [])))

/-- Python `sorted` on strings (lexicographic by code point). -/
def insertSorted (a : String) : List String → List String
  | [] => [a]
  | b :: bs => if a ≤ b then a :: b :: bs else b :: insertSorted a bs

def sortStrings (l : List String) : List String := l.foldr insertSorted []

/-- `membership_patterns` events (lines 315-319): for each
`user_to_groups` entry with a non-empty sorted pattern, append the user
under the pattern key. -/
def patternEvents (s : Snapshot) : List (List String × String) :=
  (ddItems (utgEvents s)).foldl (fun acc p =>
    let pat := sortStrings p.2
    if pat ≠ [] then acc ++ [(pat, p.1)] else acc) []

/-- The groups of users sharing one membership pattern that anomaly
check 5 reports (lines 321-325): patterns with more than one user. -/
def sharedPatterns (s : Snapshot) : List (List String × List String) :=
  (ddItems (patternEvents s)).filter (fun q => decide (q.2.length > 1))

/-- The JSON document written at the end of the run (lines 342-353),
restricted to the fields the claims mention. -/
structure ExportDoc where
  users : List UserRec
  groups : List GroupRec
  workspaces : List WorkspaceRec
  user_to_groups : List (String × List String)
  group_to_users : List (String × List String)
  group_hierarchy : List (String × List String)
  workspace_permissions : List (String × List PermEntry)
  anomalies : List String
deriving DecidableEq, Repr

def exportOf (s : Snapshot) : ExportDoc :=
  { users := s.users, groups := s.groups, workspaces := s.workspaces,
    user_to_groups := ddItems (utgEvents s),
    group_to_users := ddItems (gtuEvents s),
    group_hierarchy := ddItems s.hierarchy,
    workspace_permissions := ddItems s.perms,
    anomalies := anomaliesList s }

/-! ### The per-detector findings, stated as filters

Used by the theorems to characterize what each appending loop produces. -/

def detector1 (s : Snapshot) : List String :=
  (ddItems s.perms).flatMap (fun wsP =>
    (wsP.2.filter (fun p => decide (p.assignee_type = some "user"))).map
      (fun p => a1Msg p.assignee_id p.name wsP.1))

def detector2 (s : Snapshot) : List String :=
  ((ddItems (utgEvents s)).filter (fun p => decide (p.2.length > 3))).map
    (fun p => a2Msg p.1 p.2.length)

def detector3 (s : Snapshot) : List String :=
  (s.workspaces.filter (fun ws =>
    decide (ddHasKey s.perms ws.id = false ∨ ddLookup s.perms ws.id = []))).map
    (fun ws => a3Msg ws.id)

def detector4 (s : Snapshot) : List String :=
  (s.groups.filter (fun g =>
    decide (ddLookup (gtuEvents s) g.id = [] ∧ ddHasKey s.hierarchy g.id = false ∧
      some g.id ∉ usedGroups s))).map (fun g => orphanMsg g.id)

/-! ## Concrete fixtures (the spec's example scenarios) -/

def mkMeasureItem (lid mid : String) : Item :=
  { measure := some { localIdentifier := some lid, metricId := some mid, title := none } }

/-- Spec example 4: measures `[m1:rev, m2:rev, m3:cost]`. -/
def exBuckets : List Bucket :=
  [{ localIdentifier := some "measures",
     items := [mkMeasureItem "m1" "rev", mkMeasureItem "m2" "rev", mkMeasureItem "m3" "cost"] }]

/-- The same object after an external edit added another duplicate
(`m4:rev`), as in spec example 5. -/
def exBucketsMore : List Bucket :=
  [{ localIdentifier := some "measures",
     items := [mkMeasureItem "m1" "rev", mkMeasureItem "m2" "rev", mkMeasureItem "m3" "cost",
               mkMeasureItem "m4" "rev"] }]

/-- The same object with an extra non-measures bucket appended: the
duplicate list, and hence the token, is unchanged. -/
def exBucketsView : List Bucket :=
  exBuckets ++ [{ localIdentifier := some "view", items := [] }]

def exFetched : FetchedData := { title := some "Revenue", buckets := exBuckets }

/-- Snapshot with two users sharing the identical non-empty membership
pattern `("g1",)` and nothing else: anomaly check 5 has a finding to
report, while checks 1-4 have none. -/
def exShared : Snapshot :=
  { users := [{ id := "u1" }, { id := "u2" }], groups := [], workspaces := [],
    memberships := [("u1", "g1"), ("u2", "g1")], hierarchy := [], perms := [] }

/-- Snapshot with one user in four groups (spec example 3). -/
def exOverPriv : Snapshot :=
  { users := [{ id := "u1" }], groups := [], workspaces := [],
    memberships := [("u1", "g1"), ("u1", "g2"), ("u1", "g3"), ("u1", "g4")],
    hierarchy := [], perms := [] }

/-- Snapshot with an orphaned group `g1` and a used, parented, membered
group `g2`. -/
def exOrphan : Snapshot :=
  { users := [{ id := "u1" }], groups := [{ id := "g1" }, { id := "g2" }],
    workspaces := [{ id := "w1" }],
    memberships := [("u1", "g2")], hierarchy := [("g2", "g3")],
    perms := [("w1", { workspace_id := "w1", assignee_id := some "g2",
                       assignee_type := some "userGroup", name := "VIEW" })] }

/-- A backup record whose `customer` field names a different customer
than the one the restore call resolves. -/
def exBackup : BackupRecord :=
  { backed_up_at := some "2026-01-01T00:00:00", customer := some "dlg",
    object_type := some "visualizationObject", object_id := some "viz1",
    snapshot := some exFetched }

def exCustomers : List (String × CustConfig) :=
  [("tpp", { workspace_id := "wsA", project_path := "/home/tpp" }),
   ("dlg", { workspace_id := "wsB", project_path := "/home/dlg" })]

/-! ## Statement vocabulary

Definitions used to state the claims (not part of the embedding). -/

/-- Checks, along an effect trace, that a backup carrying exactly `snap`
has been recorded before every persist event. -/
def backupOfSnapBeforePersists (snap : FetchedData) : List Effect → Bool → Bool
  | [], _ => true
  | Effect.backup _ _ _ _ s :: rest, seenB =>
    backupOfSnapBeforePersists snap rest (seenB || decide (s = snap))
  | Effect.persist _ _ _ :: rest, seenB =>
    seenB && backupOfSnapBeforePersists snap rest seenB
  | Effect.audit _ _ _ _ _ :: rest, seenB => backupOfSnapBeforePersists snap rest seenB

/-- A snapshot whose index state comes from a given membership event
stream (the other fetch steps yielded nothing). -/
def snapOfMemberships (ms : List (String × String)) : Snapshot :=
  { users := [], groups := [], workspaces := [], memberships := ms,
    hierarchy := [], perms := [] }

/-- Whether an earlier element of `pre` carries the same metric id. -/
def hasMid (pre : List Measure) (mid : Option String) : Bool :=
  pre.any (fun m => decide (m.metricId = mid))

/-- The local identifier of the first occurrence of `mid` among `pre`. -/
def firstLocalIn (pre : List Measure) (mid : Option String) : Option String :=
  ((pre.find? (fun m => decide (m.metricId = mid))).map (·.localIdentifier)).join

/-- The claim-side reading of the duplicate list: walking the measures
with the already-visited elements at hand, every measure whose metric id
already occurred is reported, in visit order, with `duplicate_of` the
local identifier of the first occurrence; first occurrences are never
reported. -/
def dupSpecAux : List Measure → List Measure → List DupEntry
  | _, [] => []
  | pre, m :: rest =>
    (if hasMid pre m.metricId then
      [{ local_identifier := m.localIdentifier, metric_id := m.metricId, title := m.title,
         duplicate_of := firstLocalIn pre m.metricId }]
     else [])
      ++ dupSpecAux (pre ++ [m]) rest

def seqStarts : List Char → List Char → Bool
  | [], _ => true
  | _ :: _, [] => false
  | a :: as, b :: bs => a == b && seqStarts as bs

/-- Whether `needle` occurs contiguously anywhere in the second list. -/
def seqOccurs (needle : List Char) : List Char → Bool
  | [] => needle.isEmpty
  | c :: rest => seqStarts needle (c :: rest) || seqOccurs needle rest

/-- The duplicate local-identifier set apply removes by. -/
def dupLocalIdsOf (buckets : List Bucket) : List (Option String) :=
  (applyDuplicates buckets).map (·.local_identifier)

/-- The document apply persists: the fetched object with its measures
buckets filtered by the duplicate set. -/
def mutatedDoc (fetched : FetchedData) : FetchedData :=
  { fetched with buckets := removeDupItems fetched.buckets (dupLocalIdsOf fetched.buckets) }

/-- What removal is supposed to do to the bucket list: same length, every
non-measures bucket untouched, and every measures bucket keeps exactly
the items whose extracted measure local identifier is outside `dupIds`,
as a sublist (order and identity preserved). -/
def measuresBucketRemoval (orig new : List Bucket) (dupIds : List (Option String)) : Prop :=
  new.length = orig.length ∧
  ∀ (i : Nat) (hi : i < orig.length) (hi2 : i < new.length),
    (orig[i].localIdentifier ≠ some "measures" → new[i] = orig[i]) ∧
    (orig[i].localIdentifier = some "measures" →
      new[i].localIdentifier = orig[i].localIdentifier ∧
      List.Sublist new[i].items orig[i].items ∧
      (∀ it ∈ orig[i].items, it ∈ new[i].items ↔ itemMeasureLocalId it ∉ dupIds))

/-! ## Helper lemmas -/

/-- A loop `for x in xs: if p x: acc.append(m x)` is the filtered map. -/
theorem foldl_ite_append {α γ : Type} (p : α → Prop) [DecidablePred p] (m : α → γ) :
    ∀ (xs : List α) (acc : List γ),
      xs.foldl (fun a x => if p x then a ++ [m x] else a) acc
        = acc ++ (xs.filter (fun x => decide (p x))).map m := by
  intro xs
  induction xs with
  | nil => intro acc; simp
  | cons x xs ih =>
    intro acc
    by_cases hx : p x
    · simp [List.foldl_cons, List.filter_cons, hx, ih, List.append_assoc]
    · simp [List.foldl_cons, List.filter_cons, hx, ih]

/-- The doubly nested appending loop is the flat-mapped filtered map. -/
theorem foldl_nested_ite_append {α β γ : Type} (f : α → List β) (p : α → β → Prop)
    [∀ a, DecidablePred (p a)] (m : α → β → γ) :
    ∀ (xs : List α) (acc : List γ),
      xs.foldl (fun acc2 x =>
        (f x).foldl (fun a y => if p x y then a ++ [m x y] else a) acc2) acc
        = acc ++ xs.flatMap (fun x => ((f x).filter (fun y => decide (p x y))).map (m x)) := by
  intro xs
  induction xs with
  | nil => intro acc; simp
  | cons x xs ih =>
    intro acc
    simp [List.foldl_cons, foldl_ite_append (p x) (m x) (f x) acc, ih, List.append_assoc]

theorem mem_ddLookup {α β : Type} [DecidableEq α] (events : List (α × β)) (k : α) (v : β) :
    v ∈ ddLookup events k ↔ (k, v) ∈ events := by
  simp only [ddLookup, List.mem_map, List.mem_filter, decide_eq_true_eq]
  constructor
  · rintro ⟨p, ⟨hp, hk⟩, hv⟩
    have : p = (k, v) := by
      cases p; cases hk; cases hv; rfl
    exact this ▸ hp
  · intro h
    exact ⟨(k, v), ⟨h, rfl⟩, rfl⟩

theorem mem_firstDedupAux {α : Type} [DecidableEq α] :
    ∀ (l : List α) (seen : List α) (a : α),
      a ∈ firstDedupAux seen l ↔ a ∈ l ∧ a ∉ seen := by
  intro l
  induction l with
  | nil => intro seen a; simp [firstDedupAux]
  | cons b rest ih =>
    intro seen a
    by_cases hb : b ∈ seen
    · simp only [firstDedupAux, if_pos hb, ih, List.mem_cons]
      constructor
      · rintro ⟨h1, h2⟩; exact ⟨Or.inr h1, h2⟩
      · rintro ⟨h1 | h1, h2⟩
        · exact absurd (h1 ▸ hb) h2
        · exact ⟨h1, h2⟩
    · simp only [firstDedupAux, if_neg hb, List.mem_cons, ih]
      constructor
      · rintro (rfl | ⟨h1, h2⟩)
        · exact ⟨Or.inl rfl, hb⟩
        · exact ⟨Or.inr h1, fun hs => h2 (Or.inr hs)⟩
      · rintro ⟨rfl | h1, h2⟩
        · exact Or.inl rfl
        · by_cases hab : a = b
          · exact Or.inl hab
          · exact Or.inr ⟨h1, fun hs => hs.elim hab h2⟩

theorem mem_ddKeys {α β : Type} [DecidableEq α] (events : List (α × β)) (k : α) :
    k ∈ ddKeys events ↔ ∃ v, (k, v) ∈ events := by
  simp only [ddKeys, mem_firstDedupAux, List.not_mem_nil, not_false_iff, and_true,
    List.mem_map]
  constructor
  · rintro ⟨⟨k1, v⟩, hp, rfl⟩
    exact ⟨v, hp⟩
  · rintro ⟨v, hv⟩; exact ⟨(k, v), hv, rfl⟩

/-- Flattening `d.items()` recovers exactly the membership of the event list. -/
theorem mem_ddItems {α β : Type} [DecidableEq α] (events : List (α × β)) (k : α) (vs : List β) :
    (∃ p ∈ ddItems events, p.1 = k ∧ p.2 = vs) ↔
      (∃ v, (k, v) ∈ events) ∧ vs = ddLookup events k := by
  simp only [ddItems, List.mem_map]
  constructor
  · rintro ⟨p, ⟨k', hk', rfl⟩, rfl, rfl⟩
    exact ⟨(mem_ddKeys events k').mp hk', rfl⟩
  · rintro ⟨hk, rfl⟩
    exact ⟨(k, ddLookup events k), ⟨k, (mem_ddKeys events k).mpr hk, rfl⟩, rfl, rfl⟩

theorem string_append_cancel {pre a b : String} (h : pre ++ a = pre ++ b) : a = b := by
  have hd : pre.data ++ a.data = pre.data ++ b.data := by
    have := congrArg String.data h
    simpa [String.data_append] using this
  exact String.ext (List.append_cancel_left hd)

theorem a1Fold_eq (s : Snapshot) (acc : List String) :
    a1Fold s acc = acc ++ detector1 s := by
  unfold a1Fold detector1
  exact foldl_nested_ite_append (fun wsP : String × List PermEntry => wsP.2)
    (fun _ p => p.assignee_type = some "user")
    (fun wsP p => a1Msg p.assignee_id p.name wsP.1) (ddItems s.perms) acc

theorem a2Fold_eq (s : Snapshot) (acc : List String) :
    a2Fold s acc = acc ++ detector2 s := by
  unfold a2Fold detector2
  exact foldl_ite_append (fun p : String × List String => p.2.length > 3)
    (fun p => a2Msg p.1 p.2.length) (ddItems (utgEvents s)) acc

theorem a3Fold_eq (s : Snapshot) (acc : List String) :
    a3Fold s acc = acc ++ detector3 s := by
  unfold a3Fold detector3
  exact foldl_ite_append
    (fun ws : WorkspaceRec => ddHasKey s.perms ws.id = false ∨ ddLookup s.perms ws.id = [])
    (fun ws => a3Msg ws.id) s.workspaces acc

theorem a4Fold_eq (s : Snapshot) (acc : List String) :
    a4Fold s acc = acc ++ detector4 s := by
  unfold a4Fold detector4
  exact foldl_ite_append
    (fun g : GroupRec => ddLookup (gtuEvents s) g.id = [] ∧
      ddHasKey s.hierarchy g.id = false ∧ some g.id ∉ usedGroups s)
    (fun g => orphanMsg g.id) s.groups acc

theorem mem_usedGroups (s : Snapshot) (x : Option String) :
    x ∈ usedGroups s ↔
      ∃ e ∈ s.perms, (e : String × PermEntry).2.assignee_type = some "userGroup" ∧
        e.2.assignee_id = x := by
  have h1 := foldl_nested_ite_append (fun wsP : String × List PermEntry => wsP.2)
    (fun _ p => p.assignee_type = some "userGroup")
    (fun _ p => p.assignee_id) (ddItems s.perms) ([] : List (Option String))
  rw [List.nil_append] at h1
  unfold usedGroups
  rw [h1]
  simp only [List.mem_flatMap, List.mem_filter, List.mem_map, decide_eq_true_eq]
  constructor
  · rintro ⟨wsP, hws, p, ⟨hp, htype⟩, hid⟩
    have hws2 : ∃ q ∈ ddItems s.perms, q.1 = wsP.1 ∧ q.2 = wsP.2 :=
      ⟨wsP, hws, rfl, rfl⟩
    rcases (mem_ddItems s.perms wsP.1 wsP.2).mp hws2 with ⟨_, hvals⟩
    have hmem : p ∈ ddLookup s.perms wsP.1 := hvals ▸ hp
    exact ⟨(wsP.1, p), (mem_ddLookup s.perms wsP.1 p).mp hmem, htype, hid⟩
  · rintro ⟨⟨k, p⟩, he, htype, hid⟩
    refine ⟨(k, ddLookup s.perms k), ?_, p, ⟨?_, htype⟩, hid⟩
    · simp only [ddItems, List.mem_map]
      exact ⟨k, (mem_ddKeys s.perms k).mpr ⟨p, he⟩, rfl⟩
    · exact (mem_ddLookup s.perms k p).mpr he

theorem lookupSeen_append (s₁ s₂ : SeenMap) (k : Option String) :
    lookupSeen (s₁ ++ s₂) k = (lookupSeen s₁ k <|> lookupSeen s₂ k) := by
  unfold lookupSeen
  rw [List.find?_append]
  cases s₁.find? (fun p => decide (p.1 = k)) <;> simp

theorem applyScanStep_some {dups : List DupEntry} {seen : SeenMap} {m : Measure}
    {v : Option String} (h : lookupSeen seen m.metricId = some v) :
    applyScanStep (dups, seen) m =
      (dups ++ [{ local_identifier := m.localIdentifier, metric_id := m.metricId,
                  title := m.title, duplicate_of := v }], seen) := by
  unfold applyScanStep
  rw [h]

theorem applyScanStep_none {dups : List DupEntry} {seen : SeenMap} {m : Measure}
    (h : lookupSeen seen m.metricId = none) :
    applyScanStep (dups, seen) m = (dups, seen ++ [(m.metricId, m.localIdentifier)]) := by
  unfold applyScanStep
  rw [h]

/-- The preview loop computes the same duplicate list and seen map as the
apply loop (the scan code is duplicated between the two tools). -/
theorem previewScan_snd_eq (ms : List Measure) :
    ∀ (cur : List CurMetric) (dups : List DupEntry) (seen : SeenMap),
      (ms.foldl previewScanStep (cur, dups, seen)).2 = ms.foldl applyScanStep (dups, seen) := by
  induction ms with
  | nil => intro cur dups seen; rfl
  | cons m rest ih =>
    intro cur dups seen
    simp only [List.foldl_cons]
    cases h : lookupSeen seen m.metricId <;>
      simp only [previewScanStep, applyScanStep, h] <;> exact ih _ _ _

theorem preview_apply_duplicates (b : List Bucket) :
    previewDuplicates b = applyDuplicates b := by
  unfold previewDuplicates previewScan applyDuplicates applyScan
  rw [previewScan_snd_eq]

/-- The fold of the apply loop, started in any state whose seen map is
consistent with the already-visited prefix `pre`, extends its duplicate
list by exactly the claim-side first-occurrence reading of the remaining
measures. -/
theorem applyScan_dups_spec (rest : List Measure) :
    ∀ (pre : List Measure) (dups : List DupEntry) (seen : SeenMap),
      (∀ mid, lookupSeen seen mid
        = (pre.find? (fun m => decide (m.metricId = mid))).map (·.localIdentifier)) →
      (rest.foldl applyScanStep (dups, seen)).1 = dups ++ dupSpecAux pre rest := by
  induction rest with
  | nil => intro pre dups seen _; simp [dupSpecAux]
  | cons m rest ih =>
    intro pre dups seen hinv
    simp only [List.foldl_cons, dupSpecAux]
    have hm := hinv m.metricId
    cases hfind : pre.find? (fun x => decide (x.metricId = m.metricId)) with
    | some m0 =>
      rw [hfind] at hm
      simp only [Option.map_some'] at hm
      have hmid : hasMid pre m.metricId = true := by
        unfold hasMid
        have hp := List.find?_some hfind
        exact List.any_eq_true.mpr ⟨m0, List.mem_of_find?_eq_some hfind, hp⟩
      have hfl : firstLocalIn pre m.metricId = m0.localIdentifier := by
        unfold firstLocalIn
        rw [hfind]
        rfl
      have hinv2 : ∀ mid, lookupSeen seen mid
          = ((pre ++ [m]).find? (fun x => decide (x.metricId = mid))).map (·.localIdentifier) := by
        intro mid2
        rw [hinv mid2, List.find?_append]
        cases h2 : pre.find? (fun x => decide (x.metricId = mid2)) with
        | some m1 => simp
        | none =>
          have hne : ¬ (m.metricId = mid2) := by
            intro he
            rw [← he] at h2
            rw [h2] at hfind
            exact Option.noConfusion hfind
          simp [List.find?, h2, hne]
      rw [applyScanStep_some hm, ih (pre ++ [m]) _ seen hinv2, if_pos hmid, hfl]
      simp [List.append_assoc]
    | none =>
      rw [hfind] at hm
      simp only [Option.map_none'] at hm
      have hmid : hasMid pre m.metricId = false := by
        unfold hasMid
        rw [List.any_eq_false]
        intro m1 hm1
        have h3 := List.find?_eq_none.mp hfind m1 hm1
        simpa using h3
      have hinv2 : ∀ mid, lookupSeen (seen ++ [(m.metricId, m.localIdentifier)]) mid
          = ((pre ++ [m]).find? (fun x => decide (x.metricId = mid))).map (·.localIdentifier) := by
        intro mid2
        rw [lookupSeen_append, hinv mid2, List.find?_append]
        cases h2 : pre.find? (fun x => decide (x.metricId = mid2)) with
        | some m1 => simp
        | none =>
          by_cases hmm2 : m.metricId = mid2
          · simp [lookupSeen, List.find?, h2, hmm2]
          · simp [lookupSeen, List.find?, h2, hmm2]
      rw [applyScanStep_none hm, ih (pre ++ [m]) _ _ hinv2, if_neg (by simp [hmid])]
      simp

/-! ## Claim theorems -/

/-- C3: for every fetched object, preview reports exactly the non-first
occurrences of each metric id among the measures, in first-seen order,
each pointing back via `duplicate_of` to the local identifier of the
first occurrence; in particular, for measures `[m1:rev, m2:rev, m3:cost]`
the duplicates list is exactly `[{localId: m2, duplicate_of: m1}]`. -/
theorem C3_preview_duplicates_first_occurrence :
    (∀ buckets : List Bucket, previewDuplicates buckets = dupSpecAux [] (measuresOf buckets)) ∧
    previewDuplicates exBuckets =
      [{ local_identifier := some "m2", metric_id := some "rev", title := none,
         duplicate_of := some "m1" }] := by
  constructor
  · intro b
    rw [preview_apply_duplicates]
    unfold applyDuplicates applyScan
    rw [applyScan_dups_spec (measuresOf b) [] [] []
      (fun mid => by simp [lookupSeen, List.find?])]
    simp
  · decide

/-- C5: `user_to_groups` and `group_to_users` are mutual inverses on
every snapshot, in particular on every snapshot built from declarative
user records whose membership stream was cut off at any point `k` by a
partial fetch failure (both indices are fed by the same append events). -/
theorem C5_inverse_indices :
    (∀ (s : Snapshot) (u g : String),
        u ∈ ddLookup (gtuEvents s) g ↔ g ∈ ddLookup (utgEvents s) u) ∧
    (∀ (decl : List (String × List String)) (k : Nat) (u g : String),
        u ∈ ddLookup (gtuEvents (snapOfMemberships ((declMembershipEvents decl).take k))) g ↔
        g ∈ ddLookup (utgEvents (snapOfMemberships ((declMembershipEvents decl).take k))) u) := by
  have base : ∀ (s : Snapshot) (u g : String),
      u ∈ ddLookup (gtuEvents s) g ↔ g ∈ ddLookup (utgEvents s) u := by
    intro s u g
    rw [mem_ddLookup, mem_ddLookup]
    unfold gtuEvents utgEvents
    constructor
    · intro h
      rcases List.mem_map.mp h with ⟨⟨a, b⟩, hp, he⟩
      cases he
      exact hp
    · intro h
      exact List.mem_map.mpr ⟨(u, g), h, rfl⟩
  exact ⟨base, fun decl k u g => base _ u g⟩

/-- C7: the confirmation token is a deterministic function of the object
id and the computed duplicate list; the token apply recomputes equals the
preview token on the same remote state; and on the spec's example, adding
a new duplicate (`m4:rev`) changes the token. -/
theorem C7_token_determinism :
    (∀ (insightId : String) (b1 b2 : List Bucket),
        previewDuplicates b1 = previewDuplicates b2 →
        previewTok insightId b1 = previewTok insightId b2) ∧
    (∀ (insightId : String) (b : List Bucket), applyTok insightId b = previewTok insightId b) ∧
    previewTok "viz1" exBuckets ≠ previewTok "viz1" exBucketsMore := by
  refine ⟨?_, ?_, ?_⟩
  · intro i b1 b2 h
    unfold previewTok
    rw [h]
  · intro i b
    unfold applyTok previewTok
    rw [preview_apply_duplicates]
  · decide

theorem C7_witness :
    previewDuplicates exBuckets = previewDuplicates exBucketsView ∧
    previewTok "viz1" exBuckets = previewTok "viz1" exBucketsView :=
  ⟨by decide, C7_token_determinism.1 "viz1" exBuckets exBucketsView (by decide)⟩

/-- C4 (amended): anomaly detectors 1-4 append their findings to the
single ordered anomalies list, in detector order and discovery order, and
that list is what the exported JSON document carries; detector 5
(duplicate access patterns) appends nothing to the list. -/
theorem C4_detectors_feed_export (s : Snapshot) :
    anomaliesList s = detector1 s ++ detector2 s ++ detector3 s ++ detector4 s ∧
    (exportOf s).anomalies = anomaliesList s := by
  constructor
  · unfold anomaliesList
    rw [a1Fold_eq, a2Fold_eq, a3Fold_eq, a4Fold_eq]
    simp [List.append_assoc]
  · rfl

/-- C4 counterexample: a snapshot where two users share the identical
non-empty membership pattern, so detector 5 has a group to report, yet
the anomalies list (and the exported `anomalies` field) is empty. -/
theorem C4_counterexample :
    anomaliesList exShared = [] ∧ (exportOf exShared).anomalies = [] ∧
    sharedPatterns exShared = [(["g1"], ["u1", "u2"])] :=
  ⟨by decide, by decide, by decide⟩

/-- C9 (amended): a finding is appended for exactly the `user_to_groups`
entries with more than 3 groups, and the finding reports the user id and
the group count; on the spec's example the user in four groups is
flagged. -/
theorem C9_over_privileged_count_only (s : Snapshot) :
    a2Fold s [] = ((ddItems (utgEvents s)).filter (fun p => decide (p.2.length > 3))).map
      (fun p => a2Msg p.1 p.2.length) ∧
    a2Fold exOverPriv [] = ["User u1 is in 4 groups"] := by
  constructor
  · have h := a2Fold_eq s []
    rw [List.nil_append] at h
    exact h
  · decide

/-- C9 counterexample: the user `u1` sits in four groups and is flagged,
but the appended finding is only `"User u1 is in 4 groups"`: none of the
four group ids occurs anywhere in the finding text, so the finding does
not report the full group list. -/
theorem C9_counterexample :
    a2Fold exOverPriv [] = ["User u1 is in 4 groups"] ∧
    ddLookup (utgEvents exOverPriv) "u1" = ["g1", "g2", "g3", "g4"] ∧
    (∀ g ∈ ddLookup (utgEvents exOverPriv) "u1",
        seqOccurs g.data ("User u1 is in 4 groups").data = false) :=
  ⟨by decide, by decide, by decide⟩

/-- C6: a fetched group is flagged orphaned iff it has no members in
`group_to_users`, is not a parent key of `group_hierarchy`, and its id
never appears as a `userGroup`-kind assignee in any workspace's
permission list. -/
theorem C6_orphaned_iff (s : Snapshot) (g : GroupRec) (hg : g ∈ s.groups) :
    orphanMsg g.id ∈ a4Fold s [] ↔
      (ddLookup (gtuEvents s) g.id = [] ∧ ddHasKey s.hierarchy g.id = false ∧
       ∀ e ∈ s.perms, (e : String × PermEntry).2.assignee_type = some "userGroup" →
         e.2.assignee_id ≠ some g.id) := by
  have h := a4Fold_eq s []
  rw [List.nil_append] at h
  rw [h]
  unfold detector4
  rw [List.mem_map]
  constructor
  · rintro ⟨g2, hg2, heq⟩
    rw [List.mem_filter] at hg2
    have hid : g2.id = g.id := string_append_cancel (by simpa [orphanMsg] using heq)
    rcases hg2 with ⟨_, hcond⟩
    rw [decide_eq_true_eq] at hcond
    rw [hid] at hcond
    refine ⟨hcond.1, hcond.2.1, ?_⟩
    intro e he htype heq2
    exact hcond.2.2 ((mem_usedGroups s (some g.id)).mpr ⟨e, he, htype, heq2⟩)
  · rintro ⟨h1, h2, h3⟩
    refine ⟨g, ?_, rfl⟩
    rw [List.mem_filter]
    refine ⟨hg, ?_⟩
    rw [decide_eq_true_eq]
    refine ⟨h1, h2, ?_⟩
    intro hmem
    rcases (mem_usedGroups s (some g.id)).mp hmem with ⟨e, he, htype, heq2⟩
    exact h3 e he htype heq2

theorem C6_witness :
    ({ id := "g1" } : GroupRec) ∈ exOrphan.groups ∧ orphanMsg "g1" ∈ a4Fold exOrphan [] :=
  ⟨by decide, (C6_orphaned_iff exOrphan { id := "g1" } (by decide)).mpr (by decide)⟩

/-- C1: when the supplied token differs from the token recomputed from
the freshly re-fetched state, apply returns a rejection, performs no
backup write and no persisting write, and records an audit entry with
status error and reason token mismatch. -/
theorem C1_token_mismatch_rejects (wsId customerName insightId tok backupPath : String)
    (fetched : FetchedData) (persistOk : Bool)
    (h : tok ≠ applyTok insightId fetched.buckets) :
    (applyRDM wsId customerName insightId tok fetched backupPath persistOk).1.success = false ∧
    (∀ e ∈ (applyRDM wsId customerName insightId tok fetched backupPath persistOk).2,
        e.isBackupEff = false ∧ e.isPersistEff = false) ∧
    Effect.audit customerName "apply_remove_duplicate_metrics" insightId "error"
        { reason := some "token_mismatch" } ∈
      (applyRDM wsId customerName insightId tok fetched backupPath persistOk).2 := by
  have hguard : ¬ (tok = confirmationTokenOf insightId (applyDuplicates fetched.buckets)) := by
    simpa [applyTok] using h
  refine ⟨?_, ?_, ?_⟩
  · simp [applyRDM, hguard]
  · intro e he
    simp [applyRDM, hguard] at he
    subst he
    exact ⟨rfl, rfl⟩
  · simp [applyRDM, hguard]

theorem C1_witness :
    "bogus" ≠ applyTok "viz1" exFetched.buckets ∧
    ((applyRDM "wsA" "tpp" "viz1" "bogus" exFetched "/backups/viz1.json" true).1.success = false ∧
     (∀ e ∈ (applyRDM "wsA" "tpp" "viz1" "bogus" exFetched "/backups/viz1.json" true).2,
         e.isBackupEff = false ∧ e.isPersistEff = false) ∧
     Effect.audit "tpp" "apply_remove_duplicate_metrics" "viz1" "error"
         { reason := some "token_mismatch" } ∈
       (applyRDM "wsA" "tpp" "viz1" "bogus" exFetched "/backups/viz1.json" true).2) :=
  ⟨by decide,
   C1_token_mismatch_rejects "wsA" "tpp" "viz1" "bogus" "/backups/viz1.json" exFetched true
     (by decide)⟩

/-- Branch equation: token mismatch. -/
theorem applyRDM_mismatch (wsId customerName insightId tok backupPath : String)
    (fetched : FetchedData) (persistOk : Bool)
    (h : tok ≠ confirmationTokenOf insightId (applyDuplicates fetched.buckets)) :
    applyRDM wsId customerName insightId tok fetched backupPath persistOk =
      ({ success := false,
         error := some "Invalid confirmation token. The insight may have changed since preview.",
         message := some "Please run preview_remove_duplicate_metrics again to get a new token." },
       [Effect.audit customerName "apply_remove_duplicate_metrics" insightId "error"
          { reason := some "token_mismatch" }]) := by
  simp only [applyRDM]
  rw [if_pos h]

/-- Branch equation: token matches but there is nothing to remove. -/
theorem applyRDM_nodup (wsId customerName insightId tok backupPath : String)
    (fetched : FetchedData) (persistOk : Bool)
    (htok : tok = confirmationTokenOf insightId (applyDuplicates fetched.buckets))
    (hdup : applyDuplicates fetched.buckets = []) :
    applyRDM wsId customerName insightId tok fetched backupPath persistOk =
      ({ success := false, error := some "No duplicate metrics found to remove." }, []) := by
  simp only [applyRDM]
  rw [if_neg (fun hc => hc htok), if_pos hdup]

/-- Branch equation: the mutating path with a successful persist. -/
theorem applyRDM_main_ok (wsId customerName insightId tok backupPath : String)
    (fetched : FetchedData)
    (htok : tok = confirmationTokenOf insightId (applyDuplicates fetched.buckets))
    (hdup : applyDuplicates fetched.buckets ≠ []) :
    applyRDM wsId customerName insightId tok fetched backupPath true =
      ({ success := true, insightId := some insightId, backupPath := some backupPath,
         removedDuplicates := applyDuplicates fetched.buckets,
         removedCount := some (applyDuplicates fetched.buckets).length,
         newMetricCount := some (applySeen fetched.buckets).length,
         message := some "Successfully removed duplicate metric(s). Backup saved." },
       [Effect.backup backupPath customerName "visualizationObject" insightId fetched,
        Effect.persist wsId insightId (some (mutatedDoc fetched)),
        Effect.audit customerName "apply_remove_duplicate_metrics" insightId "success"
          { removedCount := some (applyDuplicates fetched.buckets).length,
            removed := applyDuplicates fetched.buckets,
            backupPath := some backupPath }]) := by
  simp only [applyRDM]
  rw [if_neg (fun hc => hc htok), if_neg hdup, if_pos trivial]
  rfl

/-- Branch equation: the mutating path with a failing persist. -/
theorem applyRDM_main_fail (wsId customerName insightId tok backupPath : String)
    (fetched : FetchedData)
    (htok : tok = confirmationTokenOf insightId (applyDuplicates fetched.buckets))
    (hdup : applyDuplicates fetched.buckets ≠ []) :
    applyRDM wsId customerName insightId tok fetched backupPath false =
      ({ success := false, error := some "Failed to update insight: persist failed",
         backupPath := some backupPath,
         message := some "Backup was saved. Use restore_insight_from_backup to restore if needed." },
       [Effect.backup backupPath customerName "visualizationObject" insightId fetched,
        Effect.persist wsId insightId (some (mutatedDoc fetched)),
        Effect.audit customerName "apply_remove_duplicate_metrics" insightId "error"
          { errorMsg := some "persist failed", backupPath := some backupPath }]) := by
  simp only [applyRDM]
  rw [if_neg (fun hc => hc htok), if_neg hdup,
    if_neg (fun hc => Bool.noConfusion hc)]
  rfl

/-- C2: on every apply trace, a backup carrying the full pre-mutation
snapshot precedes every persist event; and when the persist fails after
being reached, the returned failure carries the backup path and so does
the error audit entry. -/
theorem C2_backup_before_persist (wsId customerName insightId tok backupPath : String)
    (fetched : FetchedData) (persistOk : Bool) :
    backupOfSnapBeforePersists fetched
        ((applyRDM wsId customerName insightId tok fetched backupPath persistOk).2) false = true ∧
    (persistOk = false →
      ((applyRDM wsId customerName insightId tok fetched backupPath persistOk).2.any
          Effect.isPersistEff = true) →
      (applyRDM wsId customerName insightId tok fetched backupPath persistOk).1.backupPath
          = some backupPath ∧
      Effect.audit customerName "apply_remove_duplicate_metrics" insightId "error"
          { errorMsg := some "persist failed", backupPath := some backupPath } ∈
        (applyRDM wsId customerName insightId tok fetched backupPath persistOk).2) := by
  by_cases htok : tok = confirmationTokenOf insightId (applyDuplicates fetched.buckets)
  · by_cases hdup : applyDuplicates fetched.buckets = []
    · rw [applyRDM_nodup wsId customerName insightId tok backupPath fetched persistOk htok hdup]
      simp [backupOfSnapBeforePersists]
    · cases persistOk
      · rw [applyRDM_main_fail wsId customerName insightId tok backupPath fetched htok hdup]
        refine ⟨by simp [backupOfSnapBeforePersists], fun _ _ => ⟨rfl, by simp⟩⟩
      · rw [applyRDM_main_ok wsId customerName insightId tok backupPath fetched htok hdup]
        exact ⟨by simp [backupOfSnapBeforePersists], fun hc => absurd hc (by simp)⟩
  · rw [applyRDM_mismatch wsId customerName insightId tok backupPath fetched persistOk htok]
    exact ⟨by simp [backupOfSnapBeforePersists], fun _ hc => absurd hc (by simp [Effect.isPersistEff])⟩

theorem C2_witness :
    (applyRDM "wsA" "tpp" "viz1" (applyTok "viz1" exFetched.buckets) exFetched
        "/backups/viz1.json" false).1.backupPath = some "/backups/viz1.json" ∧
    Effect.audit "tpp" "apply_remove_duplicate_metrics" "viz1" "error"
        { errorMsg := some "persist failed", backupPath := some "/backups/viz1.json" } ∈
      (applyRDM "wsA" "tpp" "viz1" (applyTok "viz1" exFetched.buckets) exFetched
        "/backups/viz1.json" false).2 :=
  (C2_backup_before_persist "wsA" "tpp" "viz1" (applyTok "viz1" exFetched.buckets)
      "/backups/viz1.json" exFetched false).2 rfl (by decide)

/-- C8: when apply reaches the mutation, the persisted document keeps the
bucket list's length, leaves every non-measures bucket untouched, and in
each measures bucket keeps exactly the items whose extracted measure
local identifier is outside the computed duplicate set, as a sublist of
the original items (order and identity of kept items preserved). -/
theorem C8_apply_removes_exactly_duplicates (wsId customerName insightId backupPath : String)
    (fetched : FetchedData) (persistOk : Bool)
    (hdup : applyDuplicates fetched.buckets ≠ []) :
    Effect.persist wsId insightId (some (mutatedDoc fetched)) ∈
      (applyRDM wsId customerName insightId (applyTok insightId fetched.buckets) fetched
        backupPath persistOk).2 ∧
    measuresBucketRemoval fetched.buckets (mutatedDoc fetched).buckets
      (dupLocalIdsOf fetched.buckets) := by
  have htok : applyTok insightId fetched.buckets
      = confirmationTokenOf insightId (applyDuplicates fetched.buckets) := rfl
  constructor
  · cases persistOk
    · rw [applyRDM_main_fail wsId customerName insightId (applyTok insightId fetched.buckets)
        backupPath fetched htok hdup]
      simp
    · rw [applyRDM_main_ok wsId customerName insightId (applyTok insightId fetched.buckets)
        backupPath fetched htok hdup]
      simp
  · show measuresBucketRemoval fetched.buckets
      (removeDupItems fetched.buckets (dupLocalIdsOf fetched.buckets))
      (dupLocalIdsOf fetched.buckets)
    unfold measuresBucketRemoval removeDupItems
    refine ⟨List.length_map _ _, fun i hi hi2 => ?_⟩
    simp only [List.getElem_map]
    by_cases hb : (fetched.buckets[i]).localIdentifier = some "measures"
    · refine ⟨fun hne => absurd hb hne, fun _ => ?_⟩
      rw [if_pos hb]
      refine ⟨rfl, List.filter_sublist _, fun it hit => ?_⟩
      simp only [List.mem_filter, decide_eq_true_eq]
      exact ⟨fun h => h.2, fun h => ⟨hit, h⟩⟩
    · refine ⟨fun _ => ?_, fun h => absurd h hb⟩
      rw [if_neg hb]

theorem C8_witness :
    applyDuplicates exFetched.buckets ≠ [] ∧
    (Effect.persist "wsA" "viz1" (some (mutatedDoc exFetched)) ∈
      (applyRDM "wsA" "tpp" "viz1" (applyTok "viz1" exFetched.buckets) exFetched
        "/backups/viz1.json" true).2 ∧
     measuresBucketRemoval exFetched.buckets (mutatedDoc exFetched).buckets
       (dupLocalIdsOf exFetched.buckets)) :=
  ⟨by decide,
   C8_apply_removes_exactly_duplicates "wsA" "tpp" "viz1" "/backups/viz1.json" exFetched true
     (by decide)⟩

/-- C10: restore resolves its workspace solely through the customer
resolution, takes the object id solely from the backup file, and persists
the backup's snapshot verbatim into that workspace; the backup's own
`customer` field is never consulted, so the outcome is identical whatever
that field holds. -/
theorem C10_restore_ignores_backup_customer
    (customers : List (String × CustConfig)) (cwd : String) (customerArg : Option String)
    (wsId customerName backupPath : String) (backup : BackupRecord) (persistOk : Bool)
    (_hres : resolveWorkspaceId customers cwd customerArg = Except.ok wsId)
    (htype : backup.object_type = some "visualizationObject") :
    Effect.persist wsId (pyStr backup.object_id) backup.snapshot ∈
      (restoreFromBackup wsId customerName backupPath backup persistOk).2 ∧
    (∀ c : Option String,
        restoreFromBackup wsId customerName backupPath { backup with customer := c } persistOk
          = restoreFromBackup wsId customerName backupPath backup persistOk) := by
  constructor
  · cases persistOk <;> simp [restoreFromBackup, htype]
  · intro c
    cases backup
    rfl

theorem C10_witness :
    resolveWorkspaceId exCustomers "/tmp" (some "tpp") = Except.ok "wsA" ∧
    exBackup.object_type = some "visualizationObject" ∧
    exBackup.customer = some "dlg" ∧
    Effect.persist "wsA" (pyStr exBackup.object_id) exBackup.snapshot ∈
      (restoreFromBackup "wsA" "tpp" "/backups/b.json" exBackup true).2 :=
  ⟨by rfl, rfl, rfl,
   (C10_restore_ignores_backup_customer exCustomers "/tmp" (some "tpp") "wsA" "tpp"
      "/backups/b.json" exBackup true (by rfl) rfl).1⟩

end GoodDataSpec
